import Mathlib

/-!
Shallow embedding of the pizza-delivery backend's order/inventory workflow
(routes/order.js, routes/admin.js, models/Inventory.js, the Order model and
razorpayService.js), with theorems checking the natural-language
specification against it.  Money values (JS numbers) are modelled as `ℚ`,
timestamps as `ℕ`, and `Math.round` as floor of `x + 1/2` (JS rounds
half-up).
-/

namespace PizzaDelivery

/-- JS `Math.round`: round half toward positive infinity. -/
def jsRound (q : ℚ) : ℤ := (q + 1/2).floor

/-! ## Inventory model (models/Inventory.js) -/

/-- The four stock actions accepted by `updateStock` (any other string throws). -/
inductive StockAction where
  | restock | consumption | wastage | adjustment
deriving DecidableEq, Repr

/-- One entry of the append-only `stockHistory` array. -/
structure StockEntry where
  action : StockAction
  quantity : ℚ
  previousStock : ℚ
  newStock : ℚ
  reason : String
  performedBy : Option String
  timestamp : ℕ
  orderRef : Option String
deriving DecidableEq, Repr

/-- An inventory document (fields relevant to the stock logic). -/
structure InventoryItem where
  name : String
  currentStock : ℚ
  minStockLevel : ℚ
  maxStockLevel : ℚ
  lowStockAlertSent : Bool
  lastRestocked : ℕ
  isActive : Bool
  stockHistory : List StockEntry
deriving DecidableEq, Repr

/-- `inventoryItemSchema.methods.isLowStock`. -/
def InventoryItem.isLowStock (i : InventoryItem) : Bool :=
  decide (i.currentStock ≤ i.minStockLevel)

/-- `inventoryItemSchema.methods.isCriticallyLowStock`:
`currentStock <= minStockLevel / 2` (JS real division). -/
def InventoryItem.isCriticallyLowStock (i : InventoryItem) : Bool :=
  decide (i.currentStock ≤ i.minStockLevel / 2)

/-- `inventoryItemSchema.methods.updateStock`: switch on the action, clamp the
resulting stock at 0, and push exactly one history entry recording the
previous and new stock (the entry stores `Math.abs(quantity)`). -/
def InventoryItem.updateStock (item : InventoryItem) (action : StockAction)
    (quantity : ℚ) (reason : String) (performedBy : Option String)
    (orderRef : Option String) (now : ℕ) : InventoryItem :=
  let previousStock := item.currentStock
  let item :=
    match action with
    | .restock =>
        { item with currentStock := item.currentStock + quantity,
                    lastRestocked := now, lowStockAlertSent := false }
    | .consumption => { item with currentStock := item.currentStock - quantity }
    | .wastage => { item with currentStock := item.currentStock - quantity }
    | .adjustment => { item with currentStock := quantity }
  let item := if item.currentStock < 0 then { item with currentStock := 0 } else item
  { item with
      stockHistory := item.stockHistory ++
        [{ action := action, quantity := |quantity|,
           previousStock := previousStock, newStock := item.currentStock,
           reason := reason, performedBy := performedBy,
           timestamp := now, orderRef := orderRef }] }

/-- `inventoryItemSchema.methods.getStockStatus`: the if-chain, critical
checked before low. -/
def InventoryItem.getStockStatus (i : InventoryItem) : String :=
  if i.isCriticallyLowStock then "critical"
  else if i.isLowStock then "low"
  else if i.currentStock ≥ i.maxStockLevel then "overstocked"
  else "normal"

/-! ## Catalog and pricing (models/Pizza.js, routes/order.js create handler) -/

/-- One entry of a customization list: `(name, price, isAvailable)`. -/
structure CustomizationOption where
  name : String
  price : ℚ
  isAvailable : Bool
deriving DecidableEq, Repr

/-- The singleton `PizzaOptions` document: five customization lists. -/
structure PizzaOptions where
  bases : List CustomizationOption
  sauces : List CustomizationOption
  cheeses : List CustomizationOption
  vegetables : List CustomizationOption
  meats : List CustomizationOption
deriving DecidableEq, Repr

/-- One `(size, priceMultiplier)` pair of a pizza. -/
structure SizeOption where
  size : String
  priceMultiplier : ℚ
deriving DecidableEq, Repr

/-- A pizza document (fields used by the order-creation handler). -/
structure Pizza where
  basePrice : ℚ
  sizes : List SizeOption
  isAvailable : Bool
deriving DecidableEq, Repr

/-- A resolved customization snapshot entry: captured name and price. -/
structure NamedPrice where
  name : String
  price : ℚ
deriving DecidableEq, Repr

/-- The raw customization selection sent by the client. -/
structure CustomizationSelection where
  base : Option String := none
  sauce : Option String := none
  cheese : List String := []
  vegetables : List String := []
  meats : List String := []
deriving DecidableEq, Repr

/-- The processed customization snapshot stored on an order item. -/
structure ProcessedCustomizations where
  base : Option NamedPrice
  sauce : Option NamedPrice
  cheese : List NamedPrice
  vegetables : List NamedPrice
  meats : List NamedPrice
deriving DecidableEq, Repr

/-- The lookup pattern `options.find(x => x.name === n && x.isAvailable)`. -/
def findAvailable (opts : List CustomizationOption) (n : String) : Option CustomizationOption :=
  opts.find? (fun o => o.name == n && o.isAvailable)

/-- Resolve a single optional selection (base or sauce): push the snapshot
entry only when an available catalog entry with that exact name exists. -/
def resolveOne (opts : List CustomizationOption) (sel : Option String) : Option NamedPrice :=
  match sel with
  | none => none
  | some n => (findAvailable opts n).map (fun o => { name := o.name, price := o.price })

/-- Resolve a list selection (cheese/vegetables/meats): each name that
resolves to an available catalog entry is pushed; the rest are dropped. -/
def resolveMany (opts : List CustomizationOption) (sels : List String) : List NamedPrice :=
  sels.filterMap fun n =>
    (findAvailable opts n).map (fun o => ({ name := o.name, price := o.price } : NamedPrice))

/-- The `processedCustomizations` object built by the create handler
(`null`/absent selection gives the empty snapshot). -/
def processCustomizations (opts : PizzaOptions) (sel : Option CustomizationSelection) :
    ProcessedCustomizations :=
  match sel with
  | none => { base := none, sauce := none, cheese := [], vegetables := [], meats := [] }
  | some s =>
      { base := resolveOne opts.bases s.base
        sauce := resolveOne opts.sauces s.sauce
        cheese := resolveMany opts.cheeses s.cheese
        vegetables := resolveMany opts.vegetables s.vegetables
        meats := resolveMany opts.meats s.meats }

/-- Price of an optional snapshot entry (0 when absent). -/
def optPrice : Option NamedPrice → ℚ
  | none => 0
  | some np => np.price

/-- Sum of the prices of a snapshot list. -/
def listPrice (l : List NamedPrice) : ℚ := (l.map NamedPrice.price).sum

/-- `customizationCost`: every price pushed into the snapshot is accumulated. -/
def ProcessedCustomizations.cost (pc : ProcessedCustomizations) : ℚ :=
  optPrice pc.base + optPrice pc.sauce +
    listPrice pc.cheese + listPrice pc.vegetables + listPrice pc.meats

/-- One stored order item (`orderItems.push({...})`). -/
structure OrderItem where
  quantity : ℕ
  size : String
  customizations : ProcessedCustomizations
  itemPrice : ℚ
  totalItemPrice : ℚ
deriving DecidableEq, Repr

/-- One requested item of the create call, with its pizza already looked up. -/
structure OrderItemReq where
  pizza : Pizza
  quantity : ℕ
  size : String
  customizations : Option CustomizationSelection
deriving DecidableEq, Repr

/-- The order item the create handler pushes for a request whose pizza is
available and whose size option was found. -/
def builtItem (opts : PizzaOptions) (req : OrderItemReq) (sizeOption : SizeOption) :
    OrderItem :=
  let itemPrice := req.pizza.basePrice * sizeOption.priceMultiplier
  let pc := processCustomizations opts req.customizations
  let customizationCost := pc.cost
  { quantity := req.quantity, size := req.size, customizations := pc,
    itemPrice := itemPrice + customizationCost,
    totalItemPrice := (itemPrice + customizationCost) * (req.quantity : ℚ) }

/-- The per-item body of the create handler's loop: availability check, size
check, base price times multiplier, customization processing, line totals. -/
def computeOrderItem (opts : PizzaOptions) (req : OrderItemReq) : Except String OrderItem :=
  if !req.pizza.isAvailable then
    .error "Pizza is not available"
  else
    match req.pizza.sizes.find? (fun s => s.size == req.size) with
    | none => .error "Size not available"
    | some sizeOption => .ok (builtItem opts req sizeOption)

/-- The create handler's loop over all requested items (first failure aborts
the request). -/
def computeOrderItems (opts : PizzaOptions) : List OrderItemReq → Except String (List OrderItem)
  | [] => .ok []
  | req :: rest =>
      match computeOrderItem opts req with
      | .error msg => .error msg
      | .ok item =>
          match computeOrderItems opts rest with
          | .error msg => .error msg
          | .ok items => .ok (item :: items)

/-! ## Order aggregate and status machine (Order model, routes/order.js,
routes/admin.js) -/

/-- The seven-value order status enum. -/
inductive OrderStatus where
  | pending | confirmed | preparing | ready | outForDelivery | delivered | cancelled
deriving DecidableEq, Repr

/-- The payment status enum. -/
inductive PaymentStatus where
  | pending | completed | failed | refunded
deriving DecidableEq, Repr

/-- The payment method enum. -/
inductive PaymentMethod where
  | razorpay | cod
deriving DecidableEq, Repr

/-- The status strings as stored in the database. -/
def OrderStatus.text : OrderStatus → String
  | .pending => "pending"
  | .confirmed => "confirmed"
  | .preparing => "preparing"
  | .ready => "ready"
  | .outForDelivery => "out-for-delivery"
  | .delivered => "delivered"
  | .cancelled => "cancelled"

/-- One entry of the order's append-only `statusHistory`. -/
structure StatusEntry where
  status : OrderStatus
  timestamp : ℕ
  updatedBy : Option String
  notes : String
deriving DecidableEq, Repr

/-- The pricing snapshot computed once at creation. -/
structure Pricing where
  subtotal : ℚ
  deliveryFee : ℚ
  tax : ℚ
  discount : ℚ
  total : ℚ
deriving DecidableEq, Repr

/-- An order document (fields used by the modelled handlers). -/
structure Order where
  orderId : String
  userId : String
  items : List OrderItem
  orderStatus : OrderStatus
  paymentStatus : PaymentStatus
  paymentMethod : PaymentMethod
  razorpayOrderId : Option String
  razorpayPaymentId : Option String
  razorpaySignature : Option String
  pricing : Pricing
  statusHistory : List StatusEntry
  actualDeliveryTime : Option ℕ
deriving DecidableEq, Repr

/-- The Order model's `pre('save')` status-history hook: it pushes an entry
exactly when `orderStatus` has been modified since the document was loaded
(`isModified`: assigning a value equal to the stored one does not mark the
path modified) and the document is not newly created (`!isNew`). -/
def preSaveStatusHook (o : Order) (statusModified : Bool) (isNew : Bool) (now : ℕ) : Order :=
  if statusModified && !isNew then
    { o with statusHistory := o.statusHistory ++
        [{ status := o.orderStatus, timestamp := now, updatedBy := none,
           notes := "Status updated to " ++ o.orderStatus.text }] }
  else o

/-- The admin handler's `validTransitions` table. -/
def validTransitions : OrderStatus → List OrderStatus
  | .pending => [.confirmed, .cancelled]
  | .confirmed => [.preparing, .cancelled]
  | .preparing => [.ready, .cancelled]
  | .ready => [.outForDelivery, .cancelled]
  | .outForDelivery => [.delivered]
  | .delivered => []
  | .cancelled => []

/-- Outcome of the admin status-update handler. -/
inductive AdminUpdateResult where
  | invalidTransition | updated
deriving DecidableEq, Repr

/-- `PUT /api/admin/orders/:orderId/status` (post order lookup): check the
transition table, set the status, push a history entry, stamp
`actualDeliveryTime` on delivery, then save (running the pre-save hook). -/
def adminUpdateStatus (o : Order) (newStatus : OrderStatus) (notes : Option String)
    (adminId : String) (now : ℕ) : AdminUpdateResult × Order :=
  if !((validTransitions o.orderStatus).contains newStatus) then
    (.invalidTransition, o)
  else
    let previousStatus := o.orderStatus
    let o1 := { o with
                  orderStatus := newStatus,
                  statusHistory := o.statusHistory ++
                    [{ status := newStatus, timestamp := now, updatedBy := some adminId,
                       notes := notes.getD ("Status updated from " ++ previousStatus.text
                         ++ " to " ++ newStatus.text) }] }
    let o2 := if newStatus = .delivered then { o1 with actualDeliveryTime := some now } else o1
    (.updated, preSaveStatusHook o2 (newStatus != previousStatus) false now)

/-! ## Inventory consumption for confirmed orders (routes/order.js helpers) -/

/-- Case-sensitive list containment of `pat` at the head of `l`. -/
def charsBeginWith : List Char → List Char → Bool
  | [], _ => true
  | _ :: _, [] => false
  | a :: as, b :: bs => a == b && charsBeginWith as bs

/-- `pat` occurs somewhere inside the second list. -/
def charsContain (pat : List Char) : List Char → Bool
  | [] => charsBeginWith pat []
  | c :: rest => charsBeginWith pat (c :: rest) || charsContain pat rest

/-- The Mongo query `name: { $regex: new RegExp(itemName, 'i') }`: ingredient
names carry no regex metacharacters, so this is a case-insensitive substring
match of the customization name inside the inventory item's name. -/
def nameMatches (itemName invName : String) : Bool :=
  charsContain (itemName.data.map Char.toLower) (invName.data.map Char.toLower)

/-- `updateInventoryItem`: `findOne` the first active inventory item whose
name matches, and if found apply `updateStock('consumption', quantity, ...)`;
a missing match is silently skipped. -/
def consumeFirstMatch (itemName : String) (qty : ℚ) (orderId : String) (now : ℕ) :
    List InventoryItem → List InventoryItem
  | [] => []
  | inv :: rest =>
      if inv.isActive && nameMatches itemName inv.name then
        inv.updateStock .consumption qty ("Used in order " ++ orderId) none (some orderId) now
          :: rest
      else
        inv :: consumeFirstMatch itemName qty orderId now rest

/-- The ingredient names referenced by an item's customization snapshot, in
the order the code visits them: base, sauce, cheese, vegetables, meats. -/
def ProcessedCustomizations.referencedNames (pc : ProcessedCustomizations) : List String :=
  (pc.base.map NamedPrice.name).toList ++ (pc.sauce.map NamedPrice.name).toList ++
    pc.cheese.map NamedPrice.name ++ pc.vegetables.map NamedPrice.name ++
    pc.meats.map NamedPrice.name

/-- The body of `updateInventoryForOrder`'s loop for one item: consume each
customization ingredient with the item's quantity. -/
def consumeForItem (it : OrderItem) (orderId : String) (now : ℕ)
    (db : List InventoryItem) : List InventoryItem :=
  let db := match it.customizations.base with
    | none => db
    | some np => consumeFirstMatch np.name (it.quantity : ℚ) orderId now db
  let db := match it.customizations.sauce with
    | none => db
    | some np => consumeFirstMatch np.name (it.quantity : ℚ) orderId now db
  let db := it.customizations.cheese.foldl
    (fun db np => consumeFirstMatch np.name (it.quantity : ℚ) orderId now db) db
  let db := it.customizations.vegetables.foldl
    (fun db np => consumeFirstMatch np.name (it.quantity : ℚ) orderId now db) db
  it.customizations.meats.foldl
    (fun db np => consumeFirstMatch np.name (it.quantity : ℚ) orderId now db) db

/-- `updateInventoryForOrder`: the loop over all order items. -/
def updateInventoryForOrder (o : Order) (db : List InventoryItem) (now : ℕ) :
    List InventoryItem :=
  o.items.foldl (fun db it => consumeForItem it o.orderId now db) db

/-- `checkAndSendLowStockAlerts`: items needing alerts (active, at or below
minimum, alert not yet sent) get `lowStockAlertSent` set to true. -/
def markLowStockAlerts (db : List InventoryItem) : List InventoryItem :=
  db.map fun i =>
    if i.isActive && !i.lowStockAlertSent && decide (i.currentStock ≤ i.minStockLevel) then
      { i with lowStockAlertSent := true }
    else i

/-! ## Payment verification, COD confirmation, cancellation, creation
(routes/order.js, utils/razorpayService.js) -/

/-- `razorpayService.verifyPaymentSignature`: recompute HMAC-SHA256 (modelled
by the abstract keyed digest `hmac`) over `orderId|paymentId` and compare to
the provided signature. -/
def verifyPaymentSignature (hmac : String → String → String)
    (secret rOrderId rPaymentId rSignature : String) : Bool :=
  hmac secret (rOrderId ++ "|" ++ rPaymentId) == rSignature

/-- Outcome of the verify-payment handler. -/
inductive VerifyResult where
  | alreadyCompleted | verificationFailed | verified
deriving DecidableEq, Repr

/-- `POST /api/orders/verify-payment` (post lookup of the order by id, owner
and razorpay method): idempotency guard, signature check, then set payment
details, `paymentStatus` completed and `orderStatus` confirmed, save (pre-save
hook), consume inventory and run the low-stock alert pass. -/
def verifyPaymentHandler (hmac : String → String → String) (secret : String)
    (order : Order) (db : List InventoryItem)
    (rOrderId rPaymentId rSignature : String) (now : ℕ) :
    VerifyResult × Order × List InventoryItem :=
  if order.paymentStatus = .completed then
    (.alreadyCompleted, order, db)
  else if !(verifyPaymentSignature hmac secret rOrderId rPaymentId rSignature) then
    (.verificationFailed, order, db)
  else
    let previousStatus := order.orderStatus
    let o := { order with
                 razorpayPaymentId := some rPaymentId,
                 razorpaySignature := some rSignature,
                 paymentStatus := .completed,
                 orderStatus := .confirmed }
    let o := preSaveStatusHook o (OrderStatus.confirmed != previousStatus) false now
    let db := updateInventoryForOrder o db now
    (.verified, o, markLowStockAlerts db)

/-- Outcome of the COD confirmation handler. -/
inductive CodResult where
  | alreadyProcessed | confirmed
deriving DecidableEq, Repr

/-- `POST /api/orders/confirm-cod` (post lookup): guard on current status
`pending`, set `orderStatus` confirmed, save, consume inventory. -/
def confirmCodHandler (order : Order) (db : List InventoryItem) (now : ℕ) :
    CodResult × Order × List InventoryItem :=
  if order.orderStatus ≠ .pending then
    (.alreadyProcessed, order, db)
  else
    let previousStatus := order.orderStatus
    let o := { order with orderStatus := .confirmed }
    let o := preSaveStatusHook o (OrderStatus.confirmed != previousStatus) false now
    let db := updateInventoryForOrder o db now
    (.confirmed, o, markLowStockAlerts db)

/-- Outcome of the user cancellation handler. -/
inductive CancelResult where
  | cannotCancel | contactSupport | cancelledOk
deriving DecidableEq, Repr

/-- `PUT /api/orders/:orderId/cancel` (post lookup): reject terminal states,
reject out-for-delivery with the contact-support message, otherwise set
`cancelled`, push a history entry, save (hook), then attempt a refund when a
razorpay payment was completed (marking `refunded` and saving again). -/
def cancelOrderHandler (order : Order) (reason : Option String) (refundSucceeds : Bool)
    (now : ℕ) : CancelResult × Order :=
  if order.orderStatus = .delivered ∨ order.orderStatus = .cancelled then
    (.cannotCancel, order)
  else if order.orderStatus = .outForDelivery then
    (.contactSupport, order)
  else
    let previousStatus := order.orderStatus
    let o := { order with
                 orderStatus := .cancelled,
                 statusHistory := order.statusHistory ++
                   [{ status := .cancelled, timestamp := now, updatedBy := none,
                      notes := reason.getD "Cancelled by user" }] }
    let o := preSaveStatusHook o (OrderStatus.cancelled != previousStatus) false now
    let o :=
      if o.paymentStatus = .completed ∧ o.paymentMethod = .razorpay then
        if refundSucceeds then
          preSaveStatusHook { o with paymentStatus := .refunded } false false now
        else o
      else o
    (.cancelledOk, o)

/-- Result of the remote razorpay order-creation call. -/
inductive GatewayResult where
  | created (gatewayOrderId : String) | failed
deriving DecidableEq, Repr

/-- Persist an already-saved order again (`order.save()`): replace it in the
store by `orderId`. -/
def saveReplace (store : List Order) (o : Order) : List Order :=
  store.map fun x => if x.orderId == o.orderId then o else x

/-- The pricing snapshot the create handler computes: `deliveryFee = 50`,
`tax = Math.round(subtotal * 0.05)`, `total = subtotal + deliveryFee + tax`,
and the `discount` field left to its schema default 0. -/
def buildPricing (items : List OrderItem) : Pricing :=
  let subtotal := (items.map OrderItem.totalItemPrice).sum
  let deliveryFee : ℚ := 50
  let taxRate : ℚ := 5 / 100
  let tax : ℚ := (jsRound (subtotal * taxRate) : ℚ)
  { subtotal := subtotal, deliveryFee := deliveryFee, tax := tax,
    discount := 0, total := subtotal + deliveryFee + tax }

/-- The order document built and first saved by the create handler:
`pending` status, `pending` payment, no gateway ids, empty history. -/
def buildPendingOrder (userId newOrderId : String) (pm : PaymentMethod)
    (items : List OrderItem) : Order :=
  { orderId := newOrderId, userId := userId, items := items,
    orderStatus := .pending, paymentStatus := .pending, paymentMethod := pm,
    razorpayOrderId := none, razorpayPaymentId := none, razorpaySignature := none,
    pricing := buildPricing items, statusHistory := [], actualDeliveryTime := none }

/-- `POST /api/orders/create` (post validation): price the items, build the
pricing snapshot (fixed delivery fee 50, 5% tax rounded, schema-default
discount 0), save the order in `pending`/`pending`, then for razorpay call
the gateway — on failure return an error (the saved order stays in the
store), on success store the gateway order id and save again. -/
def createOrderHandler (opts : PizzaOptions) (userId : String) (reqs : List OrderItemReq)
    (pm : PaymentMethod) (gateway : GatewayResult) (store : List Order)
    (newOrderId : String) : Except String Order × List Order :=
  match computeOrderItems opts reqs with
  | .error msg => (.error msg, store)
  | .ok items =>
      let order := buildPendingOrder userId newOrderId pm items
      let store1 := store ++ [order]
      match pm, gateway with
      | .razorpay, .failed => (.error "Payment order creation failed", store1)
      | .razorpay, .created gid =>
          let order2 := { order with razorpayOrderId := some gid }
          (.ok order2, saveReplace store1 order2)
      | .cod, _ => (.ok order, store1)

/-! ## Spec-side pricing definitions (for comparison against the code) -/

/-- Following the spec's words (§4.1): the price contributed by one optional
selected customization — the price of the available catalog entry with that
name, and 0 when the selection is absent or references an unknown or
unavailable name (silently dropped). -/
def specSelCostOne (opts : List CustomizationOption) : Option String → ℚ
  | none => 0
  | some n =>
      match findAvailable opts n with
      | none => 0
      | some c => c.price

/-- Following the spec's words: total contribution of a list selection. -/
def specSelCostMany (opts : List CustomizationOption) (sels : List String) : ℚ :=
  (sels.map (fun n => specSelCostOne opts (some n))).sum

/-- Following the spec's words: `sum(price of each selected customization
that exists in catalog and is marked available)` across the five groups. -/
def specSelectedCost (opts : PizzaOptions) : Option CustomizationSelection → ℚ
  | none => 0
  | some s =>
      specSelCostOne opts.bases s.base + specSelCostOne opts.sauces s.sauce +
        specSelCostMany opts.cheeses s.cheese + specSelCostMany opts.vegetables s.vegetables +
        specSelCostMany opts.meats s.meats

/-- All entries of a customization snapshot, across the five groups. -/
def ProcessedCustomizations.entries (pc : ProcessedCustomizations) : List NamedPrice :=
  pc.base.toList ++ pc.sauce.toList ++ pc.cheese ++ pc.vegetables ++ pc.meats

/-- All names of a raw selection, across the five groups. -/
def CustomizationSelection.names (s : CustomizationSelection) : List String :=
  s.base.toList ++ s.sauce.toList ++ s.cheese ++ s.vegetables ++ s.meats

/-- All catalog entries, across the five groups. -/
def PizzaOptions.allOptions (opts : PizzaOptions) : List CustomizationOption :=
  opts.bases ++ opts.sauces ++ opts.cheeses ++ opts.vegetables ++ opts.meats

/-- The (ingredient name, quantity) consumption requests an order generates:
one per referenced ingredient per item, carrying that item's quantity. -/
def orderConsumptions (o : Order) : List (String × ℕ) :=
  o.items.flatMap fun it => it.customizations.referencedNames.map fun n => (n, it.quantity)

/-! ## Concrete fixtures used by witnesses and counterexamples -/

/-- An inventory item with `min = 20`, `max = 200` and the given stock. -/
def sampleStockItem (stock : ℚ) : InventoryItem :=
  { name := "Mozzarella Cheese", currentStock := stock, minStockLevel := 20,
    maxStockLevel := 200, lowStockAlertSent := false, lastRestocked := 0,
    isActive := true, stockHistory := [] }

/-- An empty customization catalog. -/
def emptyOpts : PizzaOptions :=
  { bases := [], sauces := [], cheeses := [], vegetables := [], meats := [] }

/-- A pizza with base price 299 and a single size of multiplier 1. -/
def margherita : Pizza :=
  { basePrice := 299, sizes := [{ size := "medium", priceMultiplier := 1 }],
    isAvailable := true }

/-- One requested item: the 299-rupee pizza, multiplier-1 size, quantity 2,
no customizations. -/
def sampleReq : OrderItemReq :=
  { pizza := margherita, quantity := 2, size := "medium", customizations := none }

/-- A persisted order with no items, in the given status and payment state. -/
def sampleOrderAt (st : OrderStatus) (ps : PaymentStatus) (pm : PaymentMethod) : Order :=
  { orderId := "PZ000001001", userId := "u1", items := [],
    orderStatus := st, paymentStatus := ps, paymentMethod := pm,
    razorpayOrderId := none, razorpayPaymentId := none, razorpaySignature := none,
    pricing := { subtotal := 0, deliveryFee := 50, tax := 0, discount := 0, total := 50 },
    statusHistory := [], actualDeliveryTime := none }

/-- A concrete stand-in for the keyed HMAC-SHA256 digest. -/
def hmacSample (key msg : String) : String := key ++ "#" ++ msg

/-! ## Claim theorems -/

/-- C4: for every inventory item and stock adjustment with quantity ≥ 0
(stock being non-negative, as the schema enforces), `restock` adds the
quantity, resets `lowStockAlertSent` and stamps `lastRestocked`;
`consumption` and `wastage` subtract it; `adjustment` sets the stock
directly; the result is clamped at 0 regardless of action; and exactly one
`stockHistory` entry is appended bracketing previous and new stock, even
when clamping occurred. -/
theorem C4_updateStock_bookkeeping (item : InventoryItem) (action : StockAction)
    (q : ℚ) (reason : String) (pb oid : Option String) (now : ℕ)
    (hq : 0 ≤ q) (hs : 0 ≤ item.currentStock) :
    (action = .restock →
        (item.updateStock action q reason pb oid now).currentStock = item.currentStock + q ∧
        (item.updateStock action q reason pb oid now).lowStockAlertSent = false ∧
        (item.updateStock action q reason pb oid now).lastRestocked = now) ∧
    ((action = .consumption ∨ action = .wastage) →
        (item.updateStock action q reason pb oid now).currentStock
          = max 0 (item.currentStock - q)) ∧
    (action = .adjustment →
        (item.updateStock action q reason pb oid now).currentStock = q) ∧
    0 ≤ (item.updateStock action q reason pb oid now).currentStock ∧
    ∃ e : StockEntry,
      (item.updateStock action q reason pb oid now).stockHistory
          = item.stockHistory ++ [e] ∧
        e.previousStock = item.currentStock ∧
        e.newStock = (item.updateStock action q reason pb oid now).currentStock := by
  cases action with
  | restock =>
      simp only [InventoryItem.updateStock]
      rw [if_neg (by linarith : ¬(item.currentStock + q < 0))]
      exact ⟨fun _ => ⟨rfl, rfl, rfl⟩, by simp, by simp,
        by simpa using add_nonneg hs hq, ⟨_, rfl, rfl, rfl⟩⟩
  | consumption =>
      simp only [InventoryItem.updateStock]
      split_ifs with h
      · rw [max_eq_left (by linarith : item.currentStock - q ≤ 0)]
        exact ⟨by simp, fun _ => rfl, by simp, le_refl 0, ⟨_, rfl, rfl, rfl⟩⟩
      · rw [max_eq_right (by linarith : (0:ℚ) ≤ item.currentStock - q)]
        exact ⟨by simp, fun _ => rfl, by simp, by simpa using not_lt.mp h,
          ⟨_, rfl, rfl, rfl⟩⟩
  | wastage =>
      simp only [InventoryItem.updateStock]
      split_ifs with h
      · rw [max_eq_left (by linarith : item.currentStock - q ≤ 0)]
        exact ⟨by simp, fun _ => rfl, by simp, le_refl 0, ⟨_, rfl, rfl, rfl⟩⟩
      · rw [max_eq_right (by linarith : (0:ℚ) ≤ item.currentStock - q)]
        exact ⟨by simp, fun _ => rfl, by simp, by simpa using not_lt.mp h,
          ⟨_, rfl, rfl, rfl⟩⟩
  | adjustment =>
      simp only [InventoryItem.updateStock]
      rw [if_neg (by linarith : ¬(q < 0))]
      exact ⟨by simp, by simp, fun _ => rfl, hq, ⟨_, rfl, rfl, rfl⟩⟩

/-- Witness for C4: a clamped consumption of 5 units on stock 3. -/
theorem C4_updateStock_bookkeeping_witness :
    0 ≤ (5:ℚ) ∧ 0 ≤ (sampleStockItem 3).currentStock ∧
    (((StockAction.consumption = .restock →
        ((sampleStockItem 3).updateStock .consumption 5 "waste" none none 7).currentStock
            = (sampleStockItem 3).currentStock + 5 ∧
        ((sampleStockItem 3).updateStock .consumption 5 "waste" none none 7).lowStockAlertSent
            = false ∧
        ((sampleStockItem 3).updateStock .consumption 5 "waste" none none 7).lastRestocked
            = 7) ∧
      ((StockAction.consumption = .consumption ∨ StockAction.consumption = .wastage) →
        ((sampleStockItem 3).updateStock .consumption 5 "waste" none none 7).currentStock
            = max 0 ((sampleStockItem 3).currentStock - 5)) ∧
      (StockAction.consumption = .adjustment →
        ((sampleStockItem 3).updateStock .consumption 5 "waste" none none 7).currentStock
            = 5) ∧
      0 ≤ ((sampleStockItem 3).updateStock .consumption 5 "waste" none none 7).currentStock ∧
      ∃ e : StockEntry,
        ((sampleStockItem 3).updateStock .consumption 5 "waste" none none 7).stockHistory
            = (sampleStockItem 3).stockHistory ++ [e] ∧
          e.previousStock = (sampleStockItem 3).currentStock ∧
          e.newStock
            = ((sampleStockItem 3).updateStock .consumption 5 "waste" none none 7).currentStock)) :=
  ⟨by norm_num, by norm_num [sampleStockItem],
    C4_updateStock_bookkeeping (sampleStockItem 3) .consumption 5 "waste" none none 7
      (by norm_num) (by norm_num [sampleStockItem])⟩

/-- C7: stock status is critical when stock ≤ min/2, else low when
stock ≤ min, else overstocked when stock ≥ max, else normal — critical
taking precedence over low; with min 20 and max 200, stock 10 is critical,
20 is low, 250 is overstocked and 100 is normal. -/
theorem C7_stock_status_classification :
    (∀ i : InventoryItem,
      (i.getStockStatus = "critical" ↔ i.currentStock ≤ i.minStockLevel / 2) ∧
      (i.getStockStatus = "low" ↔
        ¬i.currentStock ≤ i.minStockLevel / 2 ∧ i.currentStock ≤ i.minStockLevel) ∧
      (i.getStockStatus = "overstocked" ↔
        ¬i.currentStock ≤ i.minStockLevel / 2 ∧ ¬i.currentStock ≤ i.minStockLevel ∧
          i.maxStockLevel ≤ i.currentStock) ∧
      (i.getStockStatus = "normal" ↔
        ¬i.currentStock ≤ i.minStockLevel / 2 ∧ ¬i.currentStock ≤ i.minStockLevel ∧
          i.currentStock < i.maxStockLevel)) ∧
    (sampleStockItem 10).getStockStatus = "critical" ∧
    (sampleStockItem 20).getStockStatus = "low" ∧
    (sampleStockItem 250).getStockStatus = "overstocked" ∧
    (sampleStockItem 100).getStockStatus = "normal" := by
  refine ⟨fun i => ?_, ?_, ?_, ?_, ?_⟩
  · simp only [InventoryItem.getStockStatus, InventoryItem.isCriticallyLowStock,
      InventoryItem.isLowStock, ge_iff_le, decide_eq_true_eq]
    split_ifs with h1 h2 h3 <;> simp_all [not_le]
  all_goals
    norm_num [sampleStockItem, InventoryItem.getStockStatus,
      InventoryItem.isCriticallyLowStock, InventoryItem.isLowStock]

/-- No status appears in its own row of the transition table. -/
lemma self_not_mem_validTransitions (st : OrderStatus) : st ∉ validTransitions st := by
  cases st <;> simp [validTransitions]

/-- A transition allowed by the table always changes the status. -/
lemma ne_of_mem_validTransitions {st s : OrderStatus}
    (h : s ∈ validTransitions st) : s ≠ st := by
  intro heq
  exact self_not_mem_validTransitions st (heq ▸ h)

/-- C2: an admin status update is accepted exactly when the transition table
allows it; a rejected update leaves the order unchanged; an accepted one sets
the new status and appends history records (the handler's entry and the
pre-save hook's entry), and a transition to delivered stamps
`actualDeliveryTime`. -/
theorem C2_admin_status_transition (o : Order) (s : OrderStatus) (notes : Option String)
    (adminId : String) (now : ℕ) :
    ((adminUpdateStatus o s notes adminId now).1 = .updated ↔
        s ∈ validTransitions o.orderStatus) ∧
    ((adminUpdateStatus o s notes adminId now).1 = .invalidTransition →
        (adminUpdateStatus o s notes adminId now).2 = o) ∧
    (s ∈ validTransitions o.orderStatus →
        (adminUpdateStatus o s notes adminId now).2.orderStatus = s ∧
        (adminUpdateStatus o s notes adminId now).2.statusHistory
            = o.statusHistory ++
              [{ status := s, timestamp := now, updatedBy := some adminId,
                 notes := notes.getD ("Status updated from " ++ o.orderStatus.text
                   ++ " to " ++ s.text) },
               { status := s, timestamp := now, updatedBy := none,
                 notes := "Status updated to " ++ s.text }] ∧
        (s = .delivered →
            (adminUpdateStatus o s notes adminId now).2.actualDeliveryTime = some now)) := by
  by_cases hmem : s ∈ validTransitions o.orderStatus
  · have hc : (validTransitions o.orderStatus).contains s = true := by
      simpa using hmem
    have hne : (s != o.orderStatus) = true := by
      simpa using ne_of_mem_validTransitions hmem
    refine ⟨by simp [adminUpdateStatus, hc, hmem], ?_, fun _ => ?_⟩
    · intro h
      simp [adminUpdateStatus, hc, hmem] at h
    · by_cases hd : s = .delivered
      · subst hd
        simp [adminUpdateStatus, hc, hmem, preSaveStatusHook, hne]
      · refine ⟨?_, ?_, fun h => absurd h hd⟩ <;>
          simp [adminUpdateStatus, hc, hmem, preSaveStatusHook, hne, hd]
  · have hc : (validTransitions o.orderStatus).contains s = false := by
      simpa using hmem
    exact ⟨by simp [adminUpdateStatus, hc, hmem], fun _ => by simp [adminUpdateStatus, hc, hmem],
      fun h => absurd h hmem⟩

/-- Witness for C2: delivering an out-for-delivery order succeeds, appends
the two history entries and stamps the delivery time. -/
theorem C2_admin_status_transition_witness :
    OrderStatus.delivered
        ∈ validTransitions (sampleOrderAt .outForDelivery .pending .cod).orderStatus ∧
    ((adminUpdateStatus (sampleOrderAt .outForDelivery .pending .cod) .delivered none
        "a1" 5).2.orderStatus = .delivered ∧
      (adminUpdateStatus (sampleOrderAt .outForDelivery .pending .cod) .delivered none
          "a1" 5).2.statusHistory
        = (sampleOrderAt .outForDelivery .pending .cod).statusHistory ++
          [{ status := .delivered, timestamp := 5, updatedBy := some "a1",
             notes := (none : Option String).getD ("Status updated from "
               ++ (sampleOrderAt .outForDelivery .pending .cod).orderStatus.text
               ++ " to " ++ OrderStatus.delivered.text) },
           { status := .delivered, timestamp := 5, updatedBy := none,
             notes := "Status updated to " ++ OrderStatus.delivered.text }] ∧
      (OrderStatus.delivered = .delivered →
        (adminUpdateStatus (sampleOrderAt .outForDelivery .pending .cod) .delivered none
            "a1" 5).2.actualDeliveryTime = some 5)) :=
  ⟨by decide,
    (C2_admin_status_transition (sampleOrderAt .outForDelivery .pending .cod) .delivered
        none "a1" 5).2.2 (by decide)⟩

/-- C9: a user cancellation is rejected on delivered or cancelled orders;
on an out-for-delivery order it is rejected with the distinct
contact-support outcome (different from the generic rejection) and the order
is unchanged; in every other status it succeeds and cancels the order. -/
theorem C9_user_cancellation (o : Order) (reason : Option String)
    (refundSucceeds : Bool) (now : ℕ) :
    ((o.orderStatus = .delivered ∨ o.orderStatus = .cancelled) →
        cancelOrderHandler o reason refundSucceeds now = (.cannotCancel, o)) ∧
    (o.orderStatus = .outForDelivery →
        cancelOrderHandler o reason refundSucceeds now = (.contactSupport, o)) ∧
    (CancelResult.contactSupport ≠ CancelResult.cannotCancel) ∧
    (o.orderStatus ≠ .delivered → o.orderStatus ≠ .cancelled →
      o.orderStatus ≠ .outForDelivery →
        (cancelOrderHandler o reason refundSucceeds now).1 = .cancelledOk ∧
        (cancelOrderHandler o reason refundSucceeds now).2.orderStatus = .cancelled) := by
  refine ⟨fun h => ?_, fun h => ?_, by simp, fun h1 h2 h3 => ?_⟩
  · simp [cancelOrderHandler, h]
  · rcases hd : o.orderStatus <;> simp [hd] at h
    simp [cancelOrderHandler, hd]
  · have hterm : ¬(o.orderStatus = .delivered ∨ o.orderStatus = .cancelled) := by
      simp [h1, h2]
    simp only [cancelOrderHandler, if_neg hterm, if_neg h3]
    constructor
    · trivial
    · simp only [preSaveStatusHook]
      split_ifs <;> rfl

/-- Witness for C9: cancelling an out-for-delivery order is rejected with
the contact-support outcome, order unchanged. -/
theorem C9_user_cancellation_witness :
    (sampleOrderAt .outForDelivery .pending .cod).orderStatus = .outForDelivery ∧
    cancelOrderHandler (sampleOrderAt .outForDelivery .pending .cod) none true 9
      = (.contactSupport, sampleOrderAt .outForDelivery .pending .cod) :=
  ⟨rfl, (C9_user_cancellation (sampleOrderAt .outForDelivery .pending .cod) none true 9).2.1
    rfl⟩

/-- C3: verifying payment on an order whose payment is already completed
fails with the already-processed outcome and changes neither the order nor
the inventory; a signature differing from the keyed digest of
`gatewayOrderId|gatewayPaymentId` fails verification and leaves the whole
state unchanged. -/
theorem C3_payment_verification_guards (hmac : String → String → String)
    (secret : String) (order : Order) (db : List InventoryItem)
    (roid rpid rsig : String) (now : ℕ) :
    (order.paymentStatus = .completed →
        verifyPaymentHandler hmac secret order db roid rpid rsig now
          = (.alreadyCompleted, order, db)) ∧
    (order.paymentStatus ≠ .completed →
      rsig ≠ hmac secret (roid ++ "|" ++ rpid) →
        verifyPaymentHandler hmac secret order db roid rpid rsig now
          = (.verificationFailed, order, db)) := by
  constructor
  · intro h
    simp [verifyPaymentHandler, h]
  · intro h hs
    have hsig : verifyPaymentSignature hmac secret roid rpid rsig = false := by
      simp only [verifyPaymentSignature, beq_eq_false_iff_ne, ne_eq]
      exact fun heq => hs heq.symm
    simp [verifyPaymentHandler, h, hsig]

/-- Witness for C3: re-verifying an already-completed payment is rejected
with no state change. -/
theorem C3_payment_verification_guards_witness :
    (sampleOrderAt .pending .completed .razorpay).paymentStatus = .completed ∧
    verifyPaymentHandler hmacSample "sec" (sampleOrderAt .pending .completed .razorpay)
        [] "ro" "rp" "bad" 0
      = (.alreadyCompleted, sampleOrderAt .pending .completed .razorpay, []) :=
  ⟨rfl, (C3_payment_verification_guards hmacSample "sec"
      (sampleOrderAt .pending .completed .razorpay) [] "ro" "rp" "bad" 0).1 rfl⟩

/-- Counterexample to C10: an order already moved to `confirmed` by an admin
while its razorpay payment is still pending.  Payment verification succeeds,
but `orderStatus` is assigned the value it already has, so the pre-save hook
does not fire and the status history grows by zero entries, not one. -/
theorem C10_counterexample :
    (verifyPaymentHandler hmacSample "sec" (sampleOrderAt .confirmed .pending .razorpay)
        [] "ro" "rp" (hmacSample "sec" ("ro" ++ "|" ++ "rp")) 0).1 = .verified ∧
    (verifyPaymentHandler hmacSample "sec" (sampleOrderAt .confirmed .pending .razorpay)
        [] "ro" "rp" (hmacSample "sec" ("ro" ++ "|" ++ "rp")) 0).2.1.statusHistory.length
      = (sampleOrderAt .confirmed .pending .razorpay).statusHistory.length := by
  constructor <;> rfl

/-- C10 (amended): a successful admin status update or user cancellation
grows `statusHistory` by exactly two entries (the handler's explicit push
plus the pre-save hook's); a successful COD confirmation grows it by exactly
one; a successful payment verification grows it by exactly one when the
order was not already `confirmed`, and by zero when it was (the hook fires
only when `orderStatus` is actually modified). -/
theorem C10_statusHistory_growth (o : Order) :
    (∀ (s : OrderStatus) (notes : Option String) (adminId : String) (now : ℕ),
      (adminUpdateStatus o s notes adminId now).1 = .updated →
        (adminUpdateStatus o s notes adminId now).2.statusHistory.length
          = o.statusHistory.length + 2) ∧
    (∀ (reason : Option String) (rOk : Bool) (now : ℕ),
      (cancelOrderHandler o reason rOk now).1 = .cancelledOk →
        (cancelOrderHandler o reason rOk now).2.statusHistory.length
          = o.statusHistory.length + 2) ∧
    (∀ (db : List InventoryItem) (now : ℕ),
      (confirmCodHandler o db now).1 = .confirmed →
        (confirmCodHandler o db now).2.1.statusHistory.length
          = o.statusHistory.length + 1) ∧
    (∀ (hmac : String → String → String) (secret : String) (db : List InventoryItem)
        (roid rpid rsig : String) (now : ℕ),
      (verifyPaymentHandler hmac secret o db roid rpid rsig now).1 = .verified →
        (verifyPaymentHandler hmac secret o db roid rpid rsig now).2.1.statusHistory.length
          = o.statusHistory.length + (if o.orderStatus = .confirmed then 0 else 1)) := by
  refine ⟨?_, ?_, ?_, ?_⟩
  · intro s notes adminId now h
    by_cases hmem : s ∈ validTransitions o.orderStatus
    · have hc : (validTransitions o.orderStatus).contains s = true := by simpa using hmem
      have hnep : s ≠ o.orderStatus := ne_of_mem_validTransitions hmem
      by_cases hd : s = .delivered
      · subst hd
        simp [adminUpdateStatus, hc, hmem, preSaveStatusHook, hnep, List.length_append]
      · simp [adminUpdateStatus, hc, hmem, preSaveStatusHook, hnep, hd, List.length_append]
    · have hc : (validTransitions o.orderStatus).contains s = false := by simpa using hmem
      simp [adminUpdateStatus, hc, hmem] at h
  · intro reason rOk now h
    by_cases h1 : o.orderStatus = .delivered ∨ o.orderStatus = .cancelled
    · simp [cancelOrderHandler, h1] at h
    · by_cases h2 : o.orderStatus = .outForDelivery
      · simp [cancelOrderHandler, h1, h2] at h
      · have hne : (OrderStatus.cancelled != o.orderStatus) = true := by
          simp only [bne_iff_ne, ne_eq]
          exact fun heq => (not_or.mp h1).2 heq.symm
        simp only [cancelOrderHandler, if_neg h1, if_neg h2, preSaveStatusHook, hne,
          Bool.false_and, Bool.and_false, Bool.not_false, Bool.true_and, if_true,
          Bool.and_self, if_false]
        split_ifs <;> simp_all [List.length_append]
  · intro db now h
    by_cases hp : o.orderStatus = .pending
    · have hne : (OrderStatus.confirmed != o.orderStatus) = true := by simp [hp]
      simp [confirmCodHandler, hp, preSaveStatusHook, hne, List.length_append]
    · simp [confirmCodHandler, hp] at h
  · intro hmac secret db roid rpid rsig now h
    by_cases hc : o.paymentStatus = .completed
    · simp [verifyPaymentHandler, hc] at h
    · by_cases hsig : verifyPaymentSignature hmac secret roid rpid rsig = true
      · by_cases hcon : o.orderStatus = .confirmed
        · have hne : (OrderStatus.confirmed != o.orderStatus) = false := by simp [hcon]
          simp [verifyPaymentHandler, hc, hsig, preSaveStatusHook, hne, hcon]
        · have hne : (OrderStatus.confirmed != o.orderStatus) = true := by
            simp only [bne_iff_ne, ne_eq]
            exact fun heq => hcon heq.symm
          simp [verifyPaymentHandler, hc, hsig, preSaveStatusHook, hne, hcon,
            List.length_append]
      · simp [verifyPaymentHandler, hc, hsig] at h

/-- Witness for C10 (amended): confirming a pending order as admin grows the
history from zero to two entries. -/
theorem C10_statusHistory_growth_witness :
    (adminUpdateStatus (sampleOrderAt .pending .pending .cod) .confirmed none "a1" 3).1
        = .updated ∧
    (adminUpdateStatus (sampleOrderAt .pending .pending .cod) .confirmed none "a1" 3).2.statusHistory.length
        = (sampleOrderAt .pending .pending .cod).statusHistory.length + 2 :=
  ⟨rfl, (C10_statusHistory_growth (sampleOrderAt .pending .pending .cod)).1 .confirmed
    none "a1" 3 rfl⟩

/-- The nested per-item consumption loop equals one pass over the item's
referenced ingredient names, each consuming the item's quantity. -/
lemma consumeForItem_eq_foldl (it : OrderItem) (oid : String) (now : ℕ)
    (db : List InventoryItem) :
    consumeForItem it oid now db
      = (it.customizations.referencedNames.map (fun n => (n, it.quantity))).foldl
          (fun db nq => consumeFirstMatch nq.1 (nq.2 : ℚ) oid now db) db := by
  rcases it with ⟨qty, sz, pc, ip, tp⟩
  rcases pc with ⟨b, sc, ch, vg, mt⟩
  cases b <;> cases sc <;>
    simp [consumeForItem, ProcessedCustomizations.referencedNames,
      List.map_append, List.foldl_append, List.foldl_map, Option.toList]

/-- The whole inventory update of a confirmed order equals one pass over
`orderConsumptions`: one consumption per referenced ingredient per item,
carrying the item's quantity. -/
lemma updateInventoryForOrder_eq_foldl (o : Order) (db : List InventoryItem) (now : ℕ) :
    updateInventoryForOrder o db now
      = (orderConsumptions o).foldl
          (fun db nq => consumeFirstMatch nq.1 (nq.2 : ℚ) o.orderId now db) db := by
  unfold updateInventoryForOrder orderConsumptions
  generalize o.items = items
  induction items generalizing db with
  | nil => rfl
  | cons it rest ih =>
      rw [List.foldl_cons, consumeForItem_eq_foldl, ih, List.flatMap_cons,
        List.foldl_append]

/-- C6: on successful payment verification the order's payment becomes
completed and its status confirmed, its items are untouched, and the
inventory is consumed once per ingredient referenced by each order item with
that item's quantity (followed by the low-stock alert pass); a successful
COD confirmation performs the same inventory side effects after setting the
status confirmed. -/
theorem C6_inventory_consumption_on_confirmation
    (hmac : String → String → String) (secret : String) (order : Order)
    (db : List InventoryItem) (roid rpid rsig : String) (now : ℕ)
    (hpay : order.paymentStatus ≠ .completed)
    (hsig : rsig = hmac secret (roid ++ "|" ++ rpid)) :
    ((verifyPaymentHandler hmac secret order db roid rpid rsig now).1 = .verified ∧
      (verifyPaymentHandler hmac secret order db roid rpid rsig now).2.1.paymentStatus
          = .completed ∧
      (verifyPaymentHandler hmac secret order db roid rpid rsig now).2.1.orderStatus
          = .confirmed ∧
      (verifyPaymentHandler hmac secret order db roid rpid rsig now).2.1.items
          = order.items ∧
      (verifyPaymentHandler hmac secret order db roid rpid rsig now).2.2
          = markLowStockAlerts
              ((orderConsumptions (verifyPaymentHandler hmac secret order db roid rpid
                  rsig now).2.1).foldl
                (fun db nq => consumeFirstMatch nq.1 (nq.2 : ℚ) order.orderId now db) db)) ∧
    (∀ (o2 : Order) (db2 : List InventoryItem),
      o2.orderStatus = .pending →
        (confirmCodHandler o2 db2 now).1 = .confirmed ∧
        (confirmCodHandler o2 db2 now).2.1.orderStatus = .confirmed ∧
        (confirmCodHandler o2 db2 now).2.1.items = o2.items ∧
        (confirmCodHandler o2 db2 now).2.2
          = markLowStockAlerts
              ((orderConsumptions (confirmCodHandler o2 db2 now).2.1).foldl
                (fun db nq => consumeFirstMatch nq.1 (nq.2 : ℚ) o2.orderId now db) db2)) := by
  constructor
  · have hs : verifyPaymentSignature hmac secret roid rpid rsig = true := by
      simp [verifyPaymentSignature, hsig]
    by_cases hbne : (OrderStatus.confirmed != order.orderStatus) = true <;>
      simp [verifyPaymentHandler, hpay, hs, preSaveStatusHook, hbne,
        updateInventoryForOrder_eq_foldl]
  · intro o2 db2 hp
    have hbne : (OrderStatus.confirmed != o2.orderStatus) = true := by simp [hp]
    simp [confirmCodHandler, hp, preSaveStatusHook, hbne,
      updateInventoryForOrder_eq_foldl]

/-- Witness for C6: verifying a pending razorpay order with a matching
signature confirms it and performs the consumption pass. -/
theorem C6_inventory_consumption_on_confirmation_witness :
    (sampleOrderAt .pending .pending .razorpay).paymentStatus ≠ .completed ∧
    hmacSample "sec" ("ro" ++ "|" ++ "rp") = hmacSample "sec" ("ro" ++ "|" ++ "rp") ∧
    ((verifyPaymentHandler hmacSample "sec" (sampleOrderAt .pending .pending .razorpay)
        [sampleStockItem 50] "ro" "rp" (hmacSample "sec" ("ro" ++ "|" ++ "rp")) 4).1
          = .verified ∧
      (verifyPaymentHandler hmacSample "sec" (sampleOrderAt .pending .pending .razorpay)
        [sampleStockItem 50] "ro" "rp" (hmacSample "sec" ("ro" ++ "|" ++ "rp")) 4).2.1.paymentStatus
          = .completed ∧
      (verifyPaymentHandler hmacSample "sec" (sampleOrderAt .pending .pending .razorpay)
        [sampleStockItem 50] "ro" "rp" (hmacSample "sec" ("ro" ++ "|" ++ "rp")) 4).2.1.orderStatus
          = .confirmed ∧
      (verifyPaymentHandler hmacSample "sec" (sampleOrderAt .pending .pending .razorpay)
        [sampleStockItem 50] "ro" "rp" (hmacSample "sec" ("ro" ++ "|" ++ "rp")) 4).2.1.items
          = (sampleOrderAt .pending .pending .razorpay).items ∧
      (verifyPaymentHandler hmacSample "sec" (sampleOrderAt .pending .pending .razorpay)
        [sampleStockItem 50] "ro" "rp" (hmacSample "sec" ("ro" ++ "|" ++ "rp")) 4).2.2
          = markLowStockAlerts
              ((orderConsumptions (verifyPaymentHandler hmacSample "sec"
                  (sampleOrderAt .pending .pending .razorpay) [sampleStockItem 50]
                  "ro" "rp" (hmacSample "sec" ("ro" ++ "|" ++ "rp")) 4).2.1).foldl
                (fun db nq => consumeFirstMatch nq.1 (nq.2 : ℚ)
                  (sampleOrderAt .pending .pending .razorpay).orderId 4 db)
                [sampleStockItem 50])) :=
  ⟨by decide, rfl,
    (C6_inventory_consumption_on_confirmation hmacSample "sec"
      (sampleOrderAt .pending .pending .razorpay) [sampleStockItem 50] "ro" "rp"
      (hmacSample "sec" ("ro" ++ "|" ++ "rp")) 4 (by decide) rfl).1⟩

/-- C1: every order returned by the create handler carries a pricing
snapshot with `subtotal` the sum of the items' `totalItemPrice`,
`tax = round(subtotal * 0.05)`, `deliveryFee = 50` and
`total = subtotal + tax + deliveryFee - discount`; in particular one item of
base price 299, multiplier 1, no customizations, quantity 2 gives subtotal
598, tax 30, delivery fee 50 and total 678. -/
theorem C1_order_pricing :
    (∀ (opts : PizzaOptions) (userId : String) (reqs : List OrderItemReq)
        (pm : PaymentMethod) (gw : GatewayResult) (store : List Order)
        (oid : String) (order : Order),
      (createOrderHandler opts userId reqs pm gw store oid).1 = .ok order →
        order.pricing.subtotal = (order.items.map OrderItem.totalItemPrice).sum ∧
        order.pricing.tax = (jsRound (order.pricing.subtotal * (5 / 100)) : ℚ) ∧
        order.pricing.deliveryFee = 50 ∧
        order.pricing.total = order.pricing.subtotal + order.pricing.tax
            + order.pricing.deliveryFee - order.pricing.discount) ∧
    (createOrderHandler emptyOpts "u" [sampleReq] .cod .failed [] "PZ1").1
        = .ok (buildPendingOrder "u" "PZ1" .cod
            [builtItem emptyOpts sampleReq { size := "medium", priceMultiplier := 1 }]) ∧
    (buildPendingOrder "u" "PZ1" .cod
        [builtItem emptyOpts sampleReq { size := "medium", priceMultiplier := 1 }]).pricing
      = { subtotal := 598, deliveryFee := 50, tax := 30, discount := 0, total := 678 } := by
  refine ⟨?_, rfl, ?_⟩
  · intro opts userId reqs pm gw store oid order h
    cases hitems : computeOrderItems opts reqs with
    | error msg => simp [createOrderHandler, hitems] at h
    | ok items =>
        have hpr : order.pricing = buildPricing items ∧ order.items = items := by
          cases pm <;> cases gw <;>
            simp [createOrderHandler, hitems, buildPendingOrder] at h <;>
            simp [← h, buildPendingOrder]
        rcases hpr with ⟨hp, hi⟩
        rw [hp, hi]
        refine ⟨rfl, rfl, rfl, ?_⟩
        simp only [buildPricing]
        ring
  · norm_num [buildPendingOrder, buildPricing, builtItem, sampleReq, margherita,
      emptyOpts, processCustomizations, ProcessedCustomizations.cost, optPrice,
      listPrice, jsRound, Rat.floor, Pricing.mk.injEq]

/-- Witness for C1: the pricing equations at the concrete 299 × 2 order. -/
theorem C1_order_pricing_witness :
    (createOrderHandler emptyOpts "u" [sampleReq] .cod .failed [] "PZ1").1
        = .ok (buildPendingOrder "u" "PZ1" .cod
            [builtItem emptyOpts sampleReq { size := "medium", priceMultiplier := 1 }]) ∧
    ((buildPendingOrder "u" "PZ1" .cod
        [builtItem emptyOpts sampleReq { size := "medium", priceMultiplier := 1 }]).pricing.subtotal
      = ((buildPendingOrder "u" "PZ1" .cod
          [builtItem emptyOpts sampleReq { size := "medium", priceMultiplier := 1 }]).items.map
            OrderItem.totalItemPrice).sum ∧
    (buildPendingOrder "u" "PZ1" .cod
        [builtItem emptyOpts sampleReq { size := "medium", priceMultiplier := 1 }]).pricing.tax
      = (jsRound ((buildPendingOrder "u" "PZ1" .cod
          [builtItem emptyOpts sampleReq { size := "medium", priceMultiplier := 1 }]).pricing.subtotal
            * (5 / 100)) : ℚ) ∧
    (buildPendingOrder "u" "PZ1" .cod
        [builtItem emptyOpts sampleReq { size := "medium", priceMultiplier := 1 }]).pricing.deliveryFee
      = 50 ∧
    (buildPendingOrder "u" "PZ1" .cod
        [builtItem emptyOpts sampleReq { size := "medium", priceMultiplier := 1 }]).pricing.total
      = (buildPendingOrder "u" "PZ1" .cod
          [builtItem emptyOpts sampleReq { size := "medium", priceMultiplier := 1 }]).pricing.subtotal
        + (buildPendingOrder "u" "PZ1" .cod
            [builtItem emptyOpts sampleReq { size := "medium", priceMultiplier := 1 }]).pricing.tax
        + (buildPendingOrder "u" "PZ1" .cod
            [builtItem emptyOpts sampleReq { size := "medium", priceMultiplier := 1 }]).pricing.deliveryFee
        - (buildPendingOrder "u" "PZ1" .cod
            [builtItem emptyOpts sampleReq { size := "medium", priceMultiplier := 1 }]).pricing.discount) :=
  ⟨rfl, C1_order_pricing.1 emptyOpts "u" [sampleReq] .cod .failed [] "PZ1" _ rfl⟩

/-- Counterexample to C5: with a razorpay payment method and a failing
gateway call, the create handler returns a user-visible error but the order
it saved beforehand stays persisted in the store, still `pending`/`pending`
— it is neither deleted nor marked failed, so the creation is not rolled
back as claimed. -/
theorem C5_counterexample :
    (createOrderHandler emptyOpts "u" [sampleReq] .razorpay .failed [] "PZ9").1
        = .error "Payment order creation failed" ∧
    (createOrderHandler emptyOpts "u" [sampleReq] .razorpay .failed [] "PZ9").2
        = [buildPendingOrder "u" "PZ9" .razorpay
            [builtItem emptyOpts sampleReq { size := "medium", priceMultiplier := 1 }]] ∧
    (buildPendingOrder "u" "PZ9" .razorpay
        [builtItem emptyOpts sampleReq { size := "medium", priceMultiplier := 1 }]).orderStatus
      = .pending ∧
    (buildPendingOrder "u" "PZ9" .razorpay
        [builtItem emptyOpts sampleReq { size := "medium", priceMultiplier := 1 }]).paymentStatus
      = .pending :=
  ⟨rfl, rfl, rfl, rfl⟩

/-- C5 (amended): if the gateway order creation fails, the creation request
fails with a user-visible error, but the just-created order remains
persisted with `pending` order status and `pending` payment status — it is
neither deleted nor marked failed. -/
theorem C5_gateway_failure_behavior (opts : PizzaOptions) (userId : String)
    (reqs : List OrderItemReq) (store : List Order) (oid : String)
    (items : List OrderItem) (h : computeOrderItems opts reqs = .ok items) :
    (createOrderHandler opts userId reqs .razorpay .failed store oid).1
        = .error "Payment order creation failed" ∧
    (createOrderHandler opts userId reqs .razorpay .failed store oid).2
        = store ++ [buildPendingOrder userId oid .razorpay items] ∧
    (buildPendingOrder userId oid .razorpay items).orderStatus = .pending ∧
    (buildPendingOrder userId oid .razorpay items).paymentStatus = .pending := by
  refine ⟨?_, ?_, rfl, rfl⟩ <;> simp [createOrderHandler, h]

/-- Witness for C5 (amended): the concrete failing-gateway creation. -/
theorem C5_gateway_failure_behavior_witness :
    computeOrderItems emptyOpts [sampleReq]
        = .ok [builtItem emptyOpts sampleReq { size := "medium", priceMultiplier := 1 }] ∧
    ((createOrderHandler emptyOpts "u" [sampleReq] .razorpay .failed [] "PZ9").1
        = .error "Payment order creation failed" ∧
      (createOrderHandler emptyOpts "u" [sampleReq] .razorpay .failed [] "PZ9").2
        = [] ++ [buildPendingOrder "u" "PZ9" .razorpay
            [builtItem emptyOpts sampleReq { size := "medium", priceMultiplier := 1 }]] ∧
      (buildPendingOrder "u" "PZ9" .razorpay
          [builtItem emptyOpts sampleReq { size := "medium", priceMultiplier := 1 }]).orderStatus
        = .pending ∧
      (buildPendingOrder "u" "PZ9" .razorpay
          [builtItem emptyOpts sampleReq { size := "medium", priceMultiplier := 1 }]).paymentStatus
        = .pending) :=
  ⟨rfl, C5_gateway_failure_behavior emptyOpts "u" [sampleReq] [] "PZ9"
    [builtItem emptyOpts sampleReq { size := "medium", priceMultiplier := 1 }] rfl⟩

/-- The price of a resolved optional selection equals the spec's cost. -/
lemma optPrice_resolveOne (opts : List CustomizationOption) (sel : Option String) :
    optPrice (resolveOne opts sel) = specSelCostOne opts sel := by
  cases sel with
  | none => rfl
  | some n =>
      cases h : findAvailable opts n <;>
        simp [resolveOne, optPrice, specSelCostOne, h]

/-- The summed price of a resolved list selection equals the spec's cost. -/
lemma listPrice_resolveMany (opts : List CustomizationOption) (sels : List String) :
    listPrice (resolveMany opts sels) = specSelCostMany opts sels := by
  induction sels with
  | nil => rfl
  | cons n rest ih =>
      rw [show specSelCostMany opts (n :: rest)
            = specSelCostOne opts (some n) + specSelCostMany opts rest from by
          simp [specSelCostMany]]
      cases h : findAvailable opts n with
      | none =>
          rw [show resolveMany opts (n :: rest) = resolveMany opts rest from by
            simp [resolveMany, List.filterMap_cons, h]]
          rw [ih]
          simp [specSelCostOne, h]
      | some c =>
          rw [show resolveMany opts (n :: rest)
                = { name := c.name, price := c.price } :: resolveMany opts rest from by
            simp [resolveMany, List.filterMap_cons, h]]
          rw [show listPrice ({ name := c.name, price := c.price }
                :: resolveMany opts rest)
              = c.price + listPrice (resolveMany opts rest) from by
            simp [listPrice]]
          rw [ih]
          simp [specSelCostOne, h]

/-- The accumulated customization cost equals the spec's selected cost. -/
lemma cost_processCustomizations (opts : PizzaOptions) (sel : Option CustomizationSelection) :
    (processCustomizations opts sel).cost = specSelectedCost opts sel := by
  cases sel with
  | none =>
      simp [processCustomizations, ProcessedCustomizations.cost, specSelectedCost,
        optPrice, listPrice]
  | some s =>
      simp [processCustomizations, ProcessedCustomizations.cost, specSelectedCost,
        optPrice_resolveOne, listPrice_resolveMany]

/-- A successful catalog lookup returns a member entry that is available and
has the looked-up name. -/
lemma findAvailable_props {opts : List CustomizationOption} {n : String}
    {c : CustomizationOption} (h : findAvailable opts n = some c) :
    c ∈ opts ∧ c.isAvailable = true ∧ c.name = n := by
  have hmem := List.mem_of_find?_eq_some h
  have hp := List.find?_some h
  simp only [Bool.and_eq_true, beq_iff_eq] at hp
  exact ⟨hmem, hp.2, hp.1⟩

/-- Every snapshot entry of a resolved list comes from a selected name with
an available catalog match. -/
lemma mem_resolveMany {opts : List CustomizationOption} {sels : List String}
    {np : NamedPrice} (h : np ∈ resolveMany opts sels) :
    ∃ n ∈ sels, ∃ c, findAvailable opts n = some c ∧
      np = { name := c.name, price := c.price } := by
  simp only [resolveMany, List.mem_filterMap, Option.map_eq_some'] at h
  obtain ⟨n, hn, c, hc, rfl⟩ := h
  exact ⟨n, hn, c, hc, rfl⟩

/-- A resolved optional selection comes from the selected name with an
available catalog match. -/
lemma eq_resolveOne {opts : List CustomizationOption} {sel : Option String}
    {np : NamedPrice} (h : resolveOne opts sel = some np) :
    ∃ n, sel = some n ∧ ∃ c, findAvailable opts n = some c ∧
      np = { name := c.name, price := c.price } := by
  cases sel with
  | none => simp [resolveOne] at h
  | some n =>
      simp only [resolveOne, Option.map_eq_some'] at h
      obtain ⟨c, hc, rfl⟩ := h
      exact ⟨n, rfl, c, hc, rfl⟩

/-- C8: for an available pizza whose size is found, item computation never
errors regardless of the customization selection; the unit price is the base
price times the size multiplier plus the sum of the prices of exactly those
selections with an available catalog entry; and every entry stored in the
customization snapshot is an available catalog entry's name and price coming
from a selected name — unknown or unavailable selections are silently
dropped from both. -/
theorem C8_unit_price_and_snapshot (opts : PizzaOptions) (req : OrderItemReq)
    (so : SizeOption) (hav : req.pizza.isAvailable = true)
    (hsz : req.pizza.sizes.find? (fun s => s.size == req.size) = some so) :
    computeOrderItem opts req = .ok (builtItem opts req so) ∧
    (builtItem opts req so).itemPrice
        = req.pizza.basePrice * so.priceMultiplier
          + specSelectedCost opts req.customizations ∧
    (∀ np ∈ (builtItem opts req so).customizations.entries,
      ∃ c ∈ opts.allOptions, c.isAvailable = true ∧ c.name = np.name ∧
        c.price = np.price) ∧
    (∀ s, req.customizations = some s →
      ∀ np ∈ (builtItem opts req so).customizations.entries, np.name ∈ s.names) := by
  refine ⟨by simp [computeOrderItem, hav, hsz], ?_, ?_, ?_⟩
  · simp [builtItem, cost_processCustomizations]
  · intro np hnp
    cases hcust : req.customizations with
    | none =>
        simp [builtItem, hcust, processCustomizations,
          ProcessedCustomizations.entries] at hnp
    | some s =>
        simp only [builtItem, hcust, processCustomizations,
          ProcessedCustomizations.entries, List.mem_append, Option.mem_toList,
          Option.mem_def] at hnp
        rcases hnp with (((hb | hs) | hch) | hvg) | hmt
        · obtain ⟨n, -, c, hc, rfl⟩ := eq_resolveOne hb
          obtain ⟨hmem, hava, -⟩ := findAvailable_props hc
          exact ⟨c, by simp [PizzaOptions.allOptions, hmem], hava, rfl, rfl⟩
        · obtain ⟨n, -, c, hc, rfl⟩ := eq_resolveOne hs
          obtain ⟨hmem, hava, -⟩ := findAvailable_props hc
          exact ⟨c, by simp [PizzaOptions.allOptions, hmem], hava, rfl, rfl⟩
        · obtain ⟨n, -, c, hc, rfl⟩ := mem_resolveMany hch
          obtain ⟨hmem, hava, -⟩ := findAvailable_props hc
          exact ⟨c, by simp [PizzaOptions.allOptions, hmem], hava, rfl, rfl⟩
        · obtain ⟨n, -, c, hc, rfl⟩ := mem_resolveMany hvg
          obtain ⟨hmem, hava, -⟩ := findAvailable_props hc
          exact ⟨c, by simp [PizzaOptions.allOptions, hmem], hava, rfl, rfl⟩
        · obtain ⟨n, -, c, hc, rfl⟩ := mem_resolveMany hmt
          obtain ⟨hmem, hava, -⟩ := findAvailable_props hc
          exact ⟨c, by simp [PizzaOptions.allOptions, hmem], hava, rfl, rfl⟩
  · intro s hcust np hnp
    simp only [builtItem, hcust, processCustomizations,
      ProcessedCustomizations.entries, List.mem_append, Option.mem_toList,
      Option.mem_def] at hnp
    rcases hnp with (((hb | hs) | hch) | hvg) | hmt
    · obtain ⟨n, hn, c, hc, rfl⟩ := eq_resolveOne hb
      obtain ⟨-, -, hname⟩ := findAvailable_props hc
      simp [CustomizationSelection.names, hn, hname]
    · obtain ⟨n, hn, c, hc, rfl⟩ := eq_resolveOne hs
      obtain ⟨-, -, hname⟩ := findAvailable_props hc
      simp [CustomizationSelection.names, hn, hname]
    · obtain ⟨n, hn, c, hc, rfl⟩ := mem_resolveMany hch
      obtain ⟨-, -, hname⟩ := findAvailable_props hc
      simp [CustomizationSelection.names, hn, hname]
    · obtain ⟨n, hn, c, hc, rfl⟩ := mem_resolveMany hvg
      obtain ⟨-, -, hname⟩ := findAvailable_props hc
      simp [CustomizationSelection.names, hn, hname]
    · obtain ⟨n, hn, c, hc, rfl⟩ := mem_resolveMany hmt
      obtain ⟨-, -, hname⟩ := findAvailable_props hc
      simp [CustomizationSelection.names, hn, hname]

/-- A catalog with one unavailable sauce and one available cheese. -/
def sampleCatalog : PizzaOptions :=
  { bases := [], sauces := [{ name := "BBQ", price := 40, isAvailable := false }],
    cheeses := [{ name := "Mozzarella", price := 30, isAvailable := true }],
    vegetables := [], meats := [] }

/-- A selection naming the unavailable sauce, the available cheese and an
unknown cheese. -/
def sampleSel : CustomizationSelection :=
  { base := none, sauce := some "BBQ", cheese := ["Mozzarella", "Truffle"],
    vegetables := [], meats := [] }

/-- A requested item carrying that selection. -/
def sampleReqCustom : OrderItemReq :=
  { pizza := margherita, quantity := 1, size := "medium",
    customizations := some sampleSel }

/-- Witness for C8: the selection's unavailable sauce and unknown cheese are
dropped; the unit price is 299 · 1 + 30. -/
theorem C8_unit_price_and_snapshot_witness :
    sampleReqCustom.pizza.isAvailable = true ∧
    sampleReqCustom.pizza.sizes.find? (fun s => s.size == sampleReqCustom.size)
        = some { size := "medium", priceMultiplier := 1 } ∧
    computeOrderItem sampleCatalog sampleReqCustom
        = .ok (builtItem sampleCatalog sampleReqCustom
            { size := "medium", priceMultiplier := 1 }) ∧
    (builtItem sampleCatalog sampleReqCustom
        { size := "medium", priceMultiplier := 1 }).itemPrice
      = sampleReqCustom.pizza.basePrice * (1:ℚ)
        + specSelectedCost sampleCatalog sampleReqCustom.customizations ∧
    (builtItem sampleCatalog sampleReqCustom
        { size := "medium", priceMultiplier := 1 }).itemPrice = 329 :=
  ⟨rfl, rfl,
    (C8_unit_price_and_snapshot sampleCatalog sampleReqCustom
      { size := "medium", priceMultiplier := 1 } rfl rfl).1,
    (C8_unit_price_and_snapshot sampleCatalog sampleReqCustom
      { size := "medium", priceMultiplier := 1 } rfl rfl).2.1,
    by
      have h1 : ("Mozzarella" == "Truffle") = false := by decide
      norm_num [builtItem, sampleCatalog, sampleReqCustom, sampleSel, margherita,
        processCustomizations, ProcessedCustomizations.cost, optPrice, listPrice,
        resolveOne, resolveMany, findAvailable, List.find?, List.filterMap, h1]⟩

end PizzaDelivery
